import Mathlib

/-!
Verification development for the waternity event ingestion, verification and
session-state reduction pipeline.

The TypeScript sources are embedded shallowly:

* JS numbers are modelled as `ℚ` (all arithmetic in the embedded code is
  exact addition/multiplication/comparison on finite values).
* JS `Map` objects are modelled as insertion-ordered association lists
  (`List (String × α)`); `Map.get` is `getKey`, `Map.set` is `setKey`
  (update-in-place when the key is present, append otherwise), iteration
  follows the list order, exactly as JS `Map` iterates in insertion order.
* JSON text is modelled at the level of its abstract syntax tree (`Json`);
  `JSON.stringify`/`JSON.parse` of the external JSON library are inverse
  bijections between well-formed text and the AST, so the round-trip law is
  stated on the AST.
* the external `ed25519.verify` call of the verification pipeline is an
  opaque boolean oracle, passed as an explicit parameter `sigOk`.
* `Date.now()` is passed explicitly as a parameter `now`.
-/

namespace Waternity

/-! ## Association-list model of JS `Map` -/

/-- JS `Map.get k`: first value stored under key `k`. -/
def getKey (k : String) : List (String × α) → Option α
  | [] => none
  | p :: rest => if p.1 = k then some p.2 else getKey k rest

/-- JS `Map.set k v`: replace the value at `k` in place if present (JS `Map.set`
keeps the key's insertion position), otherwise append `(k, v)`. -/
def setKey (k : String) (v : α) : List (String × α) → List (String × α)
  | [] => [(k, v)]
  | p :: rest => if p.1 = k then (k, v) :: rest else p :: setKey k v rest

/-! ## Event schema (`src/lib/hcs/messageFormats.ts`) -/

/-- The `'OPEN' | 'CLOSED'` valve state. -/
inductive ValveStatus
  | OPEN
  | CLOSED
deriving DecidableEq

/-- The `'ONLINE' | 'OFFLINE' | 'MAINTENANCE' | 'ERROR'` device health. -/
inductive DeviceHealth
  | ONLINE
  | OFFLINE
  | MAINTENANCE
  | ERROR
deriving DecidableEq

/-- The `'OK' | 'WARNING' | 'ERROR'` component status in the diagnostics record. -/
inductive CompStatus
  | OK
  | WARNING
  | ERROR
deriving DecidableEq

/-- The diagnostics sub-record of a device status message. -/
structure Diagnostics where
  pumpStatus : CompStatus
  sensorStatus : CompStatus
  networkStatus : CompStatus
  memoryUsage : ℚ
  uptime : ℚ
deriving DecidableEq

/-- Source `WaterFlowMessage`: flow-event wire payload. -/
structure WaterFlowMessage where
  timestamp : ℚ
  deviceId : String
  wellId : String
  signature : String
  sessionId : String
  userId : String
  pulseCount : ℚ
  flowRate : ℚ
  totalVolume : ℚ
  valveStatus : ValveStatus
  pressure : ℚ
  temperature : ℚ
deriving DecidableEq

/-- Source `DeviceStatusMessage`: status-event wire payload. -/
structure DeviceStatusMessage where
  timestamp : ℚ
  deviceId : String
  wellId : String
  signature : String
  status : DeviceHealth
  batteryLevel : ℚ
  signalStrength : ℚ
  lastMaintenance : ℚ
  errorCode : Option String
  diagnostics : Diagnostics
deriving DecidableEq

/-- Source `HCSMessage = WaterFlowMessage | DeviceStatusMessage`, discriminated by
the `messageType` field. -/
inductive HCSMessage
  | waterFlow (m : WaterFlowMessage)
  | deviceStatus (m : DeviceStatusMessage)
deriving DecidableEq

/-- The `deviceId` of either message kind. -/
def HCSMessage.deviceId : HCSMessage → String
  | .waterFlow m => m.deviceId
  | .deviceStatus m => m.deviceId

/-- The `wellId` of either message kind. -/
def HCSMessage.wellId : HCSMessage → String
  | .waterFlow m => m.wellId
  | .deviceStatus m => m.wellId

/-- The `timestamp` of either message kind. -/
def HCSMessage.timestamp : HCSMessage → ℚ
  | .waterFlow m => m.timestamp
  | .deviceStatus m => m.timestamp

/-! ## JSON abstract syntax tree -/

/-- JSON values, as produced by `JSON.parse`. -/
inductive Json
  | str (s : String)
  | num (q : ℚ)
  | jbool (b : Bool)
  | null
  | arr (elems : List Json)
  | obj (fields : List (String × Json))

/-- Field access on a JSON object (`undefined` for a missing key or a
non-object is `none`). -/
def Json.getField : Json → String → Option Json
  | .obj fields, k => getKey k fields
  | _, _ => none

/-! ### Serialization (`serializeMessage`) -/

/-- JSON encoding of a valve state literal. -/
def ValveStatus.toJson : ValveStatus → Json
  | .OPEN => .str "OPEN"
  | .CLOSED => .str "CLOSED"

/-- JSON encoding of a device health literal. -/
def DeviceHealth.toJson : DeviceHealth → Json
  | .ONLINE => .str "ONLINE"
  | .OFFLINE => .str "OFFLINE"
  | .MAINTENANCE => .str "MAINTENANCE"
  | .ERROR => .str "ERROR"

/-- JSON encoding of a component status literal. -/
def CompStatus.toJson : CompStatus → Json
  | .OK => .str "OK"
  | .WARNING => .str "WARNING"
  | .ERROR => .str "ERROR"

/-- JSON encoding of the diagnostics sub-record. -/
def Diagnostics.toJson (d : Diagnostics) : Json :=
  .obj [("pumpStatus", d.pumpStatus.toJson),
        ("sensorStatus", d.sensorStatus.toJson),
        ("networkStatus", d.networkStatus.toJson),
        ("memoryUsage", .num d.memoryUsage),
        ("uptime", .num d.uptime)]

/-- Source `serializeMessage` = `JSON.stringify(message)`, at the AST level.
`JSON.stringify` omits an optional field that is `undefined`, hence the
`errorCode` case split. -/
def serializeMessage : HCSMessage → Json
  | .waterFlow m =>
      .obj [("timestamp", .num m.timestamp),
            ("deviceId", .str m.deviceId),
            ("wellId", .str m.wellId),
            ("signature", .str m.signature),
            ("messageType", .str "WATER_FLOW"),
            ("sessionId", .str m.sessionId),
            ("userId", .str m.userId),
            ("pulseCount", .num m.pulseCount),
            ("flowRate", .num m.flowRate),
            ("totalVolume", .num m.totalVolume),
            ("valveStatus", m.valveStatus.toJson),
            ("pressure", .num m.pressure),
            ("temperature", .num m.temperature)]
  | .deviceStatus m =>
      .obj ([("timestamp", .num m.timestamp),
             ("deviceId", .str m.deviceId),
             ("wellId", .str m.wellId),
             ("signature", .str m.signature),
             ("messageType", .str "DEVICE_STATUS"),
             ("status", m.status.toJson),
             ("batteryLevel", .num m.batteryLevel),
             ("signalStrength", .num m.signalStrength),
             ("lastMaintenance", .num m.lastMaintenance)]
            ++ (match m.errorCode with
                | some c => [("errorCode", Json.str c)]
                | none => [])
            ++ [("diagnostics", m.diagnostics.toJson)])

/-! ### Structural validation (`validateWaterFlowMessage`,
`validateDeviceStatusMessage`, `validateHCSMessage`) -/

/-- JS `typeof x === 'number'`. -/
def Json.isNum : Option Json → Bool
  | some (.num _) => true
  | _ => false

/-- JS `typeof x === 'string'`. -/
def Json.isStr : Option Json → Bool
  | some (.str _) => true
  | _ => false

/-- Membership of a field's value in a list of string literals
(`[...].includes(x)`). -/
def Json.isOneOf (j : Option Json) (lits : List String) : Bool :=
  match j with
  | some (.str s) => lits.contains s
  | _ => false

/-- JS `message.messageType === t` for a string literal `t`. -/
def Json.hasMessageType (j : Json) (t : String) : Bool :=
  match j.getField "messageType" with
  | some (.str s) => s == t
  | _ => false

/-- Source `validateWaterFlowMessage` (the structural schema check of
`messageFormats.ts`). -/
def validateWaterFlowJson (j : Json) : Bool :=
  j.hasMessageType "WATER_FLOW" &&
  Json.isNum (j.getField "timestamp") &&
  Json.isStr (j.getField "deviceId") &&
  Json.isStr (j.getField "wellId") &&
  Json.isStr (j.getField "signature") &&
  Json.isStr (j.getField "sessionId") &&
  Json.isStr (j.getField "userId") &&
  Json.isNum (j.getField "pulseCount") &&
  Json.isNum (j.getField "flowRate") &&
  Json.isNum (j.getField "totalVolume") &&
  Json.isOneOf (j.getField "valveStatus") ["OPEN", "CLOSED"] &&
  Json.isNum (j.getField "pressure") &&
  Json.isNum (j.getField "temperature")

/-- JS `message.diagnostics && typeof message.diagnostics === 'object'`:
truthy and of object type (JSON-wise: an object; `null` is falsy). -/
def Json.isTruthyObject : Option Json → Bool
  | some (.obj _) => true
  | _ => false

/-- Source `validateDeviceStatusMessage` (the structural schema check of
`messageFormats.ts`; it does not inspect the diagnostics sub-fields). -/
def validateDeviceStatusJson (j : Json) : Bool :=
  j.hasMessageType "DEVICE_STATUS" &&
  Json.isNum (j.getField "timestamp") &&
  Json.isStr (j.getField "deviceId") &&
  Json.isStr (j.getField "wellId") &&
  Json.isStr (j.getField "signature") &&
  Json.isOneOf (j.getField "status") ["ONLINE", "OFFLINE", "MAINTENANCE", "ERROR"] &&
  Json.isNum (j.getField "batteryLevel") &&
  Json.isNum (j.getField "signalStrength") &&
  Json.isNum (j.getField "lastMaintenance") &&
  Json.isTruthyObject (j.getField "diagnostics")

/-- Source `validateHCSMessage`: dispatch on the `messageType` discriminator. -/
def validateHCSJson (j : Json) : Bool :=
  if j.hasMessageType "WATER_FLOW" then
    validateWaterFlowJson j
  else if j.hasMessageType "DEVICE_STATUS" then
    validateDeviceStatusJson j
  else
    false

/-! ### Typed readers

The TypeScript `deserializeMessage` returns the parsed object itself after
the structural check; the typed embedding additionally converts the AST into
the typed message record by reading each field, which is how every consumer
of the result accesses it. -/

/-- Read a string field. -/
def readStr (j : Json) (k : String) : Option String :=
  match j.getField k with
  | some (.str s) => some s
  | _ => none

/-- Read a numeric field. -/
def readNum (j : Json) (k : String) : Option ℚ :=
  match j.getField k with
  | some (.num q) => some q
  | _ => none

/-- Read a valve state literal. -/
def readValve (j : Json) (k : String) : Option ValveStatus :=
  match j.getField k with
  | some (.str "OPEN") => some .OPEN
  | some (.str "CLOSED") => some .CLOSED
  | _ => none

/-- Read a device health literal. -/
def readHealth (j : Json) (k : String) : Option DeviceHealth :=
  match j.getField k with
  | some (.str "ONLINE") => some .ONLINE
  | some (.str "OFFLINE") => some .OFFLINE
  | some (.str "MAINTENANCE") => some .MAINTENANCE
  | some (.str "ERROR") => some .ERROR
  | _ => none

/-- Read a component status literal. -/
def readComp (j : Json) (k : String) : Option CompStatus :=
  match j.getField k with
  | some (.str "OK") => some .OK
  | some (.str "WARNING") => some .WARNING
  | some (.str "ERROR") => some .ERROR
  | _ => none

/-- Read the diagnostics sub-record. -/
def readDiagnostics (j : Json) : Option Diagnostics := do
  let d ← j.getField "diagnostics"
  let pump ← readComp d "pumpStatus"
  let sensor ← readComp d "sensorStatus"
  let network ← readComp d "networkStatus"
  let mem ← readNum d "memoryUsage"
  let up ← readNum d "uptime"
  pure ⟨pump, sensor, network, mem, up⟩

/-- Convert a validated flow-message AST into the typed record. -/
def readWaterFlow (j : Json) : Option WaterFlowMessage := do
  let ts ← readNum j "timestamp"
  let dev ← readStr j "deviceId"
  let well ← readStr j "wellId"
  let sig ← readStr j "signature"
  let sid ← readStr j "sessionId"
  let uid ← readStr j "userId"
  let pulse ← readNum j "pulseCount"
  let rate ← readNum j "flowRate"
  let vol ← readNum j "totalVolume"
  let valve ← readValve j "valveStatus"
  let press ← readNum j "pressure"
  let temp ← readNum j "temperature"
  pure ⟨ts, dev, well, sig, sid, uid, pulse, rate, vol, valve, press, temp⟩

/-- Convert a validated status-message AST into the typed record.
`errorCode` is optional: a missing field reads as `none`. -/
def readDeviceStatus (j : Json) : Option DeviceStatusMessage := do
  let ts ← readNum j "timestamp"
  let dev ← readStr j "deviceId"
  let well ← readStr j "wellId"
  let sig ← readStr j "signature"
  let st ← readHealth j "status"
  let bat ← readNum j "batteryLevel"
  let sigStr ← readNum j "signalStrength"
  let maint ← readNum j "lastMaintenance"
  let ec : Option String := readStr j "errorCode"
  let diag ← readDiagnostics j
  pure ⟨ts, dev, well, sig, st, bat, sigStr, maint, ec, diag⟩

/-- Source `deserializeMessage`: structural validation then the typed view of the
parsed value (`JSON.parse` failure and validation failure both yield
`none`). -/
def deserializeMessage (j : Json) : Option HCSMessage :=
  if validateHCSJson j then
    if j.hasMessageType "WATER_FLOW" then
      (readWaterFlow j).map HCSMessage.waterFlow
    else
      (readDeviceStatus j).map HCSMessage.deviceStatus
  else
    none

/-! ## Verification pipeline (`src/lib/hcs/verificationPipeline.ts`) -/

/-- A device registration record. -/
structure DeviceRegistry where
  deviceId : String
  wellId : String
  publicKey : String
  isActive : Bool
  lastSeen : ℚ
  owner : String
deriving DecidableEq

/-- The per-(device, session) tracking entry of the pipeline's
`activeSessions` map. -/
structure TrackEntry where
  startTime : ℚ
  totalVolume : ℚ
deriving DecidableEq

/-- The result of `verifyMessage`. -/
structure VerificationResult where
  isValid : Bool
  errors : List String
  warnings : List String
  deviceInfo : Option DeviceRegistry
deriving DecidableEq

/-- The pipeline's mutable state: the device registry and the
per-(device, session) volume tracking map. -/
structure PipelineState where
  deviceRegistry : List (String × DeviceRegistry)
  activeSessions : List (String × TrackEntry)
deriving DecidableEq

/-- Source `maxTimestampDrift = 5 * 60 * 1000` ms. -/
def maxTimestampDrift : ℚ := 5 * 60 * 1000

/-- Source `maxSessionDuration = 60 * 60 * 1000` ms (pipeline constant). -/
def pipelineMaxSessionDuration : ℚ := 60 * 60 * 1000

/-- Source `registerDevice`: upsert into the device registry. -/
def registerDevice (st : PipelineState) (d : DeviceRegistry) : PipelineState :=
  { st with deviceRegistry := setKey d.deviceId d st.deviceRegistry }

/-- The tracking key `` `${deviceId}-${sessionId}` ``. -/
def sessionKey (m : WaterFlowMessage) : String :=
  m.deviceId ++ "-" ++ m.sessionId

/-- JS `Math.abs` on numbers. -/
def jsAbs (x : ℚ) : ℚ := if x < 0 then -x else x

/-- Source `validateWaterFlowMessage` (the pipeline's business-rule check): returns
the accumulated error list together with the updated tracking map.  The
tracking map is written on every call: a first event for the key registers a
fresh entry with the event's timestamp and volume; a later event overwrites
the tracked volume with the event's reported volume — in both cases
irrespective of the errors accumulated. -/
def validateFlowBusinessRules (st : PipelineState) (m : WaterFlowMessage) :
    List String × List (String × TrackEntry) :=
  let key := sessionKey m
  let rangeErrors : List String :=
    (if m.flowRate < 0 then ["Flow rate cannot be negative"] else []) ++
    (if m.totalVolume < 0 then ["Total volume cannot be negative"] else []) ++
    (if m.pulseCount < 0 then ["Pulse count cannot be negative"] else []) ++
    (if m.pressure < 0 ∨ m.pressure > 200 then
      ["Pressure reading out of valid range (0-200 PSI)"] else []) ++
    (if m.temperature < -10 ∨ m.temperature > 60 then
      ["Temperature reading out of valid range (-10 to 60 C)"] else [])
  match getKey key st.activeSessions with
  | some existing =>
      let sessionErrors : List String :=
        (if m.timestamp - existing.startTime > pipelineMaxSessionDuration then
          ["Session duration exceeds maximum allowed time"] else []) ++
        (if m.totalVolume < existing.totalVolume then
          ["Total volume cannot decrease during session"] else [])
      (sessionErrors ++ rangeErrors,
       setKey key { existing with totalVolume := m.totalVolume } st.activeSessions)
  | none =>
      (rangeErrors,
       setKey key ⟨m.timestamp, m.totalVolume⟩ st.activeSessions)

/-- Source `validateDeviceStatusMessage` (the pipeline's business-rule check). -/
def validateStatusBusinessRules (m : DeviceStatusMessage) : List String :=
  (if m.batteryLevel < 0 ∨ m.batteryLevel > 100 then
    ["Battery level must be between 0 and 100"] else []) ++
  (if m.signalStrength < -120 ∨ m.signalStrength > 0 then
    ["Signal strength out of valid range (-120 to 0 dBm)"] else []) ++
  (if m.diagnostics.memoryUsage < 0 ∨ m.diagnostics.memoryUsage > 100 then
    ["Memory usage must be between 0 and 100"] else []) ++
  (if m.diagnostics.uptime < 0 then ["Uptime cannot be negative"] else [])

/-- The low battery / weak signal warnings emitted for a status message. -/
def statusWarnings : HCSMessage → List String
  | .deviceStatus m =>
      (if m.batteryLevel < 20 then ["Device battery level is low"] else []) ++
      (if m.signalStrength < -90 then ["Device signal strength is weak"] else [])
  | .waterFlow _ => []

/-- Source `verifyMessage`.  `sigOk` is the external `ed25519.verify` oracle (a
failed or throwing verification is `false`), `now` is `Date.now()`.  Returns
the verification result and the pipeline state after the call: the tracking
map is updated for flow messages, and the registered device's `lastSeen` is
set to the message timestamp whenever the device is found. -/
def verifyMessage (sigOk : HCSMessage → String → Bool) (now : ℚ)
    (st : PipelineState) (msg : HCSMessage) : VerificationResult × PipelineState :=
  match getKey msg.deviceId st.deviceRegistry with
  | none =>
      (⟨false, ["Device not registered in the system"], [], none⟩, st)
  | some device =>
      let baseErrors : List String :=
        (if !device.isActive then ["Device is not active"] else []) ++
        (if device.wellId ≠ msg.wellId then
          ["Device is not associated with the specified well"] else []) ++
        (if ¬ jsAbs (now - msg.timestamp) ≤ maxTimestampDrift then
          ["Message timestamp is outside acceptable range"] else []) ++
        (if !sigOk msg device.publicKey then
          ["Message signature verification failed"] else [])
      let kindChecked : List String × List (String × TrackEntry) :=
        match msg with
        | .waterFlow fm => validateFlowBusinessRules st fm
        | .deviceStatus sm => (validateStatusBusinessRules sm, st.activeSessions)
      let errors := baseErrors ++ kindChecked.1
      let device' := { device with lastSeen := msg.timestamp }
      (⟨errors.isEmpty, errors, statusWarnings msg, some device'⟩,
       { deviceRegistry := setKey msg.deviceId device' st.deviceRegistry,
         activeSessions := kindChecked.2 })

/-- Source `cleanupExpiredSessions`: drop tracking entries older than
`maxSessionDuration`. -/
def cleanupExpiredTracking (now : ℚ) (st : PipelineState) : PipelineState :=
  { st with activeSessions :=
      st.activeSessions.filter (fun p => decide (¬ now - p.2.startTime > pipelineMaxSessionDuration)) }

/-- Fold a list of messages through `verifyMessage`, collecting each
message's validity flag (the ingestion client's per-event verification). -/
def runPipeline (sigOk : HCSMessage → String → Bool) (now : ℚ)
    (st : PipelineState) : List HCSMessage → List Bool × PipelineState
  | [] => ([], st)
  | msg :: rest =>
      let (res, st') := verifyMessage sigOk now st msg
      let (flags, stFinal) := runPipeline sigOk now st' rest
      (res.isValid :: flags, stFinal)

/-! ## Session manager (`src/lib/orchestrator/sessionManager` module) -/

/-- Session lifecycle status. -/
inductive SessionStatus
  | active
  | completed
  | cancelled
  | error
deriving DecidableEq

/-- A flow event recorded in a session's history. -/
structure WaterFlowEvent where
  timestamp : ℚ
  consensusTimestamp : String
  sequenceNumber : ℕ
  pulseCount : ℚ
  flowRate : ℚ
  totalVolume : ℚ
  valveStatus : ValveStatus
  pressure : ℚ
  temperature : ℚ
  isValid : Bool
deriving DecidableEq

/-- A water dispensing session record. -/
structure WaterSession where
  sessionId : String
  userId : String
  deviceId : String
  wellId : String
  startTime : ℚ
  endTime : Option ℚ
  maxVolume : ℚ
  pricePerLiter : ℚ
  totalVolume : ℚ
  totalCost : ℚ
  status : SessionStatus
  lastActivity : ℚ
  flowEvents : List WaterFlowEvent
  paymentTxHash : Option String
  revenueSplitTxHash : Option String
  errorMessage : Option String
deriving DecidableEq

/-- The session manager's device liveness record.  The runtime stores
whatever health literal the status message carried, so the field ranges over
all four literals. -/
structure DeviceStatus where
  deviceId : String
  wellId : String
  lastSeen : ℚ
  status : DeviceHealth
  batteryLevel : ℚ
  signalStrength : ℚ
  lastMaintenance : ℚ
  errorCode : Option String
  diagnostics : Option Diagnostics
deriving DecidableEq

/-- Session manager configuration. -/
structure SMConfig where
  sessionTimeout : ℚ
  maxSessionDuration : ℚ
  volumeTolerancePercent : ℚ
  cleanupInterval : ℚ

/-- Source `defaultSessionManagerConfig`. -/
def defaultSMConfig : SMConfig :=
  ⟨5 * 60 * 1000, 30 * 60 * 1000, 5, 60 * 1000⟩

/-- The session manager's mutable state: the session registry (named
`activeSessions` in the source although it also holds terminal sessions
until retention eviction) and the device liveness registry. -/
structure SMState where
  sessions : List (String × WaterSession)
  deviceStatuses : List (String × DeviceStatus)
deriving DecidableEq

/-- The empty initial state. -/
def initSM : SMState := ⟨[], []⟩

/-- An envelope delivered by the ingestion client to the session manager. -/
structure ProcessedMessage where
  sequenceNumber : ℕ
  timestamp : String
  consensusTimestamp : String
  message : HCSMessage
  isValid : Bool
  payerAccountId : String

/-- Source `getActiveSessionForDevice`: first session in registry iteration order
with the given device id and status `active`. -/
def getActiveSessionForDevice (st : SMState) (deviceId : String) : Option WaterSession :=
  (st.sessions.map Prod.snd).find?
    (fun s => decide (s.deviceId = deviceId ∧ s.status = .active))

/-- The caller-supplied data of `createSession`. -/
structure CreateData where
  sessionId : String
  userId : String
  deviceId : String
  wellId : String
  maxVolume : ℚ
  pricePerLiter : ℚ

/-- Source `createSession`: throws (modelled as `none`, state unchanged) when the
device has no liveness record with status `ONLINE` or already has an active
session; otherwise registers and returns a fresh active session. -/
def createSession (now : ℚ) (st : SMState) (d : CreateData) :
    Option WaterSession × SMState :=
  match getKey d.deviceId st.deviceStatuses with
  | none => (none, st)
  | some ds =>
      if ds.status ≠ .ONLINE then (none, st)
      else
        match getActiveSessionForDevice st d.deviceId with
        | some _ => (none, st)
        | none =>
            let s : WaterSession :=
              { sessionId := d.sessionId, userId := d.userId,
                deviceId := d.deviceId, wellId := d.wellId,
                startTime := now, endTime := none,
                maxVolume := d.maxVolume, pricePerLiter := d.pricePerLiter,
                totalVolume := 0, totalCost := 0,
                status := .active, lastActivity := now, flowEvents := [],
                paymentTxHash := none, revenueSplitTxHash := none,
                errorMessage := none }
            (some s, { st with sessions := setKey d.sessionId s st.sessions })

/-- Source `completeSession`: no-op returning `false` when the session is absent or
not active; otherwise mark completed and stamp the end time.  The `reason`
argument only reaches the log line — it is not stored on the session. -/
def completeSession (now : ℚ) (st : SMState) (sessionId : String) :
    Bool × SMState :=
  match getKey sessionId st.sessions with
  | none => (false, st)
  | some s =>
      if s.status ≠ .active then (false, st)
      else
        let s' : WaterSession := { s with status := .completed, endTime := some now }
        (true, { st with sessions := setKey sessionId s' st.sessions })

/-- Source `cancelSession`: no-op returning `false` when the session is absent or
not active; otherwise mark cancelled, stamp the end time and store the
reason in `errorMessage`. -/
def cancelSession (now : ℚ) (st : SMState) (sessionId : String)
    (reason : Option String) : Bool × SMState :=
  match getKey sessionId st.sessions with
  | none => (false, st)
  | some s =>
      if s.status ≠ .active then (false, st)
      else
        let s' : WaterSession :=
          { s with status := .cancelled, endTime := some now, errorMessage := reason }
        (true, { st with sessions := setKey sessionId s' st.sessions })

/-- Source `errorSession`: no-op returning `false` only when the session is absent;
any present session — terminal or not — is marked `error` with the end time
and error message overwritten. -/
def errorSession (now : ℚ) (st : SMState) (sessionId : String)
    (errorMessage : String) : Bool × SMState :=
  match getKey sessionId st.sessions with
  | none => (false, st)
  | some s =>
      let s' : WaterSession :=
        { s with status := .error, endTime := some now, errorMessage := some errorMessage }
      (true, { st with sessions := setKey sessionId s' st.sessions })

/-- The flow event built from a verified flow message. -/
def mkFlowEvent (seqNum : ℕ) (consensusTs : String) (fm : WaterFlowMessage) :
    WaterFlowEvent :=
  { timestamp := fm.timestamp, consensusTimestamp := consensusTs,
    sequenceNumber := seqNum, pulseCount := fm.pulseCount,
    flowRate := fm.flowRate, totalVolume := fm.totalVolume,
    valveStatus := fm.valveStatus, pressure := fm.pressure,
    temperature := fm.temperature, isValid := true }

/-- Source `processWaterFlowMessage`: route the flow message to the session with
its session id (whatever that session's status); drop it if the session is
absent or its device/user mismatch; otherwise append the event, overwrite
the running totals and refresh activity, then attempt completion when the
valve is closed or the volume limit is reached. -/
def processWaterFlowMessage (now : ℚ) (st : SMState) (seqNum : ℕ)
    (consensusTs : String) (fm : WaterFlowMessage) : SMState :=
  match getKey fm.sessionId st.sessions with
  | none => st
  | some session =>
      if session.deviceId ≠ fm.deviceId ∨ session.userId ≠ fm.userId then st
      else
        let updated : WaterSession :=
          { session with
            flowEvents := session.flowEvents ++ [mkFlowEvent seqNum consensusTs fm],
            totalVolume := fm.totalVolume,
            totalCost := fm.totalVolume * session.pricePerLiter,
            lastActivity := now }
        let st' : SMState :=
          { st with sessions := setKey fm.sessionId updated st.sessions }
        if fm.valveStatus = .CLOSED ∨ updated.totalVolume ≥ updated.maxVolume then
          (completeSession now st' fm.sessionId).2
        else
          st'

/-- Source `processDeviceStatusMessage`: upsert the liveness record; when the
device reports `OFFLINE`, cancel its active session (if any) with reason
"Device went offline". -/
def processDeviceStatusMessage (now : ℚ) (st : SMState)
    (sm : DeviceStatusMessage) : SMState :=
  let ds : DeviceStatus :=
    { deviceId := sm.deviceId, wellId := sm.wellId, lastSeen := sm.timestamp,
      status := sm.status, batteryLevel := sm.batteryLevel,
      signalStrength := sm.signalStrength, lastMaintenance := sm.lastMaintenance,
      errorCode := sm.errorCode, diagnostics := some sm.diagnostics }
  let st' : SMState := { st with deviceStatuses := setKey sm.deviceId ds st.deviceStatuses }
  if sm.status = .OFFLINE then
    match getActiveSessionForDevice st' sm.deviceId with
    | some activeSession =>
        (cancelSession now st' activeSession.sessionId (some "Device went offline")).2
    | none => st'
  else
    st'

/-- Source `processMessage`: invalid envelopes are dropped; valid ones dispatch on
the message kind. -/
def processMessage (now : ℚ) (st : SMState) (pm : ProcessedMessage) : SMState :=
  if !pm.isValid then st
  else
    match pm.message with
    | .waterFlow fm =>
        processWaterFlowMessage now st pm.sequenceNumber pm.consensusTimestamp fm
    | .deviceStatus sm => processDeviceStatusMessage now st sm

/-- The retention window: terminal sessions are evicted 24 hours after their
end time. -/
def retentionWindow : ℚ := 24 * 60 * 60 * 1000

/-- The per-session transition applied by one iteration of the cleanup
sweep: an active session is cancelled for inactivity past `sessionTimeout`
(storing the reason), else completed past `maxSessionDuration` (storing no
reason — `completeSession` discards its reason argument). -/
def sweepSession (cfg : SMConfig) (now : ℚ) (s : WaterSession) : WaterSession :=
  if s.status = .active then
    if now - s.lastActivity > cfg.sessionTimeout then
      { s with status := .cancelled, endTime := some now,
               errorMessage := some "Session timeout due to inactivity" }
    else if now - s.startTime > cfg.maxSessionDuration then
      { s with status := .completed, endTime := some now }
    else s
  else s

/-- The sweep's retention predicate, checked on the (already transitioned)
session of the same iteration: terminal, with an end time more than the
retention window ago. -/
def shouldEvict (now : ℚ) (s : WaterSession) : Bool :=
  s.status ≠ .active &&
    (match s.endTime with
     | some e => decide (now - e > retentionWindow)
     | none => false)

/-- Source `cleanupOldSessions`: one pass of the periodic sweep — apply the timeout
transitions to every registry entry, then evict expired terminal
sessions. -/
def cleanupOldSessions (cfg : SMConfig) (now : ℚ) (st : SMState) : SMState :=
  let swept := (st.sessions.map (fun p => (p.1, sweepSession cfg now p.2))).filter
    (fun p => !shouldEvict now p.2)
  { st with sessions := swept }

/-- The aggregate statistics record of `getStatistics`. -/
structure Statistics where
  totalSessions : ℕ
  activeSessions : ℕ
  completedSessions : ℕ
  cancelledSessions : ℕ
  errorSessions : ℕ
  totalVolume : ℚ
  totalRevenue : ℚ
  onlineDevices : ℕ
  totalDevices : ℕ
deriving DecidableEq

/-- Source `getStatistics`: counts by status over the session registry, volume and
revenue summed over every session still in the registry regardless of
status, plus device counts. -/
def getStatistics (st : SMState) : Statistics :=
  let sessions := st.sessions.map Prod.snd
  let devices := st.deviceStatuses.map Prod.snd
  { totalSessions := sessions.length,
    activeSessions := (sessions.filter (fun s => decide (s.status = .active))).length,
    completedSessions := (sessions.filter (fun s => decide (s.status = .completed))).length,
    cancelledSessions := (sessions.filter (fun s => decide (s.status = .cancelled))).length,
    errorSessions := (sessions.filter (fun s => decide (s.status = .error))).length,
    totalVolume := sessions.foldl (fun sum s => sum + s.totalVolume) 0,
    totalRevenue := sessions.foldl (fun sum s => sum + s.totalCost) 0,
    onlineDevices := (devices.filter (fun d => decide (d.status = .ONLINE))).length,
    totalDevices := devices.length }

/-- The session manager operations reachable from external callers and the
ingestion stream, for reachability-invariant statements. -/
inductive SMOp
  | create (now : ℚ) (d : CreateData)
  | procMsg (now : ℚ) (pm : ProcessedMessage)
  | complete (now : ℚ) (sessionId : String)
  | cancel (now : ℚ) (sessionId : String) (reason : Option String)
  | err (now : ℚ) (sessionId : String) (msg : String)
  | sweep (now : ℚ)

/-- Apply one operation (discarding the caller-visible return value). -/
def applyOp (cfg : SMConfig) (st : SMState) : SMOp → SMState
  | .create now d => (createSession now st d).2
  | .procMsg now pm => processMessage now st pm
  | .complete now sid => (completeSession now st sid).2
  | .cancel now sid reason => (cancelSession now st sid reason).2
  | .err now sid msg => (errorSession now st sid msg).2
  | .sweep now => cleanupOldSessions cfg now st

/-- Run a sequence of operations from a state. -/
def runOps (cfg : SMConfig) (st : SMState) : List SMOp → SMState
  | [] => st
  | op :: rest => runOps cfg (applyOp cfg st op) rest

/-! ## Log ingestion client (`MirrorNodeClient`)

One successful poll cycle of `poll()`: fetch the page of log entries with
`sequencenumber >= lastSequenceNumber + 1` ordered ascending (bounded page
size), advance the cursor to the maximum sequence number of the page when it
is non-empty, and deliver every fetched envelope — valid or invalid — to the
message callbacks. -/

/-- The ingestion client's state observable across poll cycles: the
sequence cursor and the stream of envelopes delivered to subscribers. -/
structure PollState where
  lastSequenceNumber : ℕ
  delivered : List ProcessedMessage

/-- The indexing service's read API: entries with sequence number at least
`fromSeq`, bounded by the page size (`buildUrl`'s `gte` filter and
`limit`). -/
def fetchMessages (log : List ProcessedMessage) (fromSeq : ℕ) (limit : ℕ) :
    List ProcessedMessage :=
  (log.filter (fun m => decide (fromSeq ≤ m.sequenceNumber))).take limit

/-- JS `Math.max(...messages.map(m => m.sequenceNumber))` over a page. -/
def maxSeq (msgs : List ProcessedMessage) : ℕ :=
  msgs.foldl (fun acc m => max acc m.sequenceNumber) 0

/-- One successful poll cycle against the log as visible at that moment. -/
def pollCycle (limit : ℕ) (st : PollState) (log : List ProcessedMessage) :
    PollState :=
  let msgs := fetchMessages log (st.lastSequenceNumber + 1) limit
  if msgs.isEmpty then st
  else
    { lastSequenceNumber := maxSeq msgs,
      delivered := st.delivered ++ msgs }

/-- A sequence of successful poll cycles, each against the (append-only)
log as visible at that cycle. -/
def runPolls (limit : ℕ) (st : PollState) : List (List ProcessedMessage) → PollState
  | [] => st
  | log :: rest => runPolls limit (pollCycle limit st log) rest

/-! ## Helper lemmas -/

/-- The number of sessions in a registry satisfying `Q`. -/
def countQ (Q : WaterSession → Bool) (l : List (String × WaterSession)) : ℕ :=
  l.countP (fun p => Q p.2)

/-- Predicate: is an active session of device `d`. -/
def activeFor (d : String) (s : WaterSession) : Bool :=
  decide (s.deviceId = d ∧ s.status = .active)

/-- For all devices, the registry holds at most one active session. -/
def atMostOneActive (st : SMState) : Prop :=
  ∀ d, countQ (activeFor d) st.sessions ≤ 1

/-- Sum of a numeric projection over a session list, as the JS
`Array.reduce((sum, s) => sum + f(s), 0)`. -/
def sumBy (f : WaterSession → ℚ) (l : List WaterSession) : ℚ :=
  l.foldl (fun acc s => acc + f s) 0

/-- The sessions of the registry with a given status. -/
def sessionsWithStatus (σ : SessionStatus) (st : SMState) : List WaterSession :=
  (st.sessions.map Prod.snd).filter (fun s => decide (s.status = σ))

/-- The session record after `processWaterFlowMessage` appends the event and
overwrites totals, before any completion. -/
def flowUpdated (now : ℚ) (seqNum : ℕ) (cts : String) (fm : WaterFlowMessage)
    (s : WaterSession) : WaterSession :=
  { s with
      flowEvents := s.flowEvents ++ [mkFlowEvent seqNum cts fm]
      totalVolume := fm.totalVolume
      totalCost := fm.totalVolume * s.pricePerLiter
      lastActivity := now }

/-- Record `flowUpdated` followed by completion. -/
def flowCompleted (now : ℚ) (seqNum : ℕ) (cts : String) (fm : WaterFlowMessage)
    (s : WaterSession) : WaterSession :=
  { flowUpdated now seqNum cts fm s with
      status := .completed
      endTime := some now }

/-- The session record written by `errorSession`. -/
def errored (now : ℚ) (msg : String) (s : WaterSession) : WaterSession :=
  { s with
      status := .error
      endTime := some now
      errorMessage := some msg }

/-- The session record written by the sweep's inactivity cancellation. -/
def inactivityCancelled (now : ℚ) (s : WaterSession) : WaterSession :=
  { s with
      status := .cancelled
      endTime := some now
      errorMessage := some "Session timeout due to inactivity" }

/-- The session record written by the sweep's max-duration completion
(no reason is stored: `completeSession` discards its reason argument). -/
def durationCompleted (now : ℚ) (s : WaterSession) : WaterSession :=
  { s with
      status := .completed
      endTime := some now }

/-! ## Concrete fixtures for witnesses and counterexamples -/

/-- A signature oracle that accepts everything (the external `ed25519`
library is out of scope; concrete runs fix its verdict). -/
def trueSig : HCSMessage → String → Bool := fun _ _ => true

/-- A registered, active device for pipeline runs. -/
def pipeDevice : DeviceRegistry :=
  { deviceId := "D1", wellId := "W1", publicKey := "pk", isActive := true,
    lastSeen := 0, owner := "0.0.1001" }

/-- Pipeline state with `pipeDevice` registered and no tracking entries. -/
def pipeState0 : PipelineState := ⟨[("D1", pipeDevice)], []⟩

/-- A flow message from `pipeDevice` for session `S1` with the given
cumulative volume; every other field passes the range checks. -/
def flowMsg (vol : ℚ) : WaterFlowMessage :=
  { timestamp := 0, deviceId := "D1", wellId := "W1", signature := "sig",
    sessionId := "S1", userId := "U1", pulseCount := 0, flowRate := 1,
    totalVolume := vol, valveStatus := .OPEN, pressure := 50, temperature := 20 }

/-- Pipeline state after verifying the first flow event (volume 3). -/
def pipeState1 : PipelineState :=
  (verifyMessage trueSig 0 pipeState0 (.waterFlow (flowMsg 3))).2

/-- A session already in terminal status `completed`. -/
def termSession : WaterSession :=
  { sessionId := "S1", userId := "U1", deviceId := "D1", wellId := "W1",
    startTime := 0, endTime := some 10, maxVolume := 5, pricePerLiter := 1/10,
    totalVolume := 5, totalCost := 1/2, status := .completed,
    lastActivity := 10, flowEvents := [], paymentTxHash := none,
    revenueSplitTxHash := none, errorMessage := none }

/-- Session-manager state holding only the terminal `termSession`. -/
def termState : SMState := ⟨[("S1", termSession)], []⟩

/-- A valid flow message whose session id names the terminal session and
whose device and user match it. -/
def termFlow : WaterFlowMessage :=
  { timestamp := 15, deviceId := "D1", wellId := "W1", signature := "sig",
    sessionId := "S1", userId := "U1", pulseCount := 0, flowRate := 1,
    totalVolume := 6, valveStatus := .OPEN, pressure := 50, temperature := 20 }

/-- Scenario A: liveness record of device `D1` at facility `F1`, online. -/
def scADevice : DeviceStatus :=
  { deviceId := "D1", wellId := "F1", lastSeen := 0, status := .ONLINE,
    batteryLevel := 100, signalStrength := -50, lastMaintenance := 0,
    errorCode := none, diagnostics := none }

/-- Scenario A: initial state with `D1` online and no sessions. -/
def scAState0 : SMState := ⟨[], [("D1", scADevice)]⟩

/-- Scenario A: the create request for session `S1` (maxVolume 5.0,
price 0.1). -/
def scACreate : CreateData :=
  { sessionId := "S1", userId := "U1", deviceId := "D1", wellId := "F1",
    maxVolume := 5, pricePerLiter := 1/10 }

/-- Scenario A: a flow message of the given cumulative volume and valve
state for session `S1` on `D1`. -/
def scAFlow (vol : ℚ) (valve : ValveStatus) : WaterFlowMessage :=
  { timestamp := 0, deviceId := "D1", wellId := "F1", signature := "sig",
    sessionId := "S1", userId := "U1", pulseCount := 0, flowRate := 1,
    totalVolume := vol, valveStatus := valve, pressure := 50, temperature := 20 }

/-- Scenario A: a verified envelope carrying `scAFlow vol valve`. -/
def scAEnv (seq : ℕ) (vol : ℚ) (valve : ValveStatus) : ProcessedMessage :=
  { sequenceNumber := seq, timestamp := "t", consensusTimestamp := "ct",
    message := .waterFlow (scAFlow vol valve), isValid := true,
    payerAccountId := "0.0.2002" }

/-- Scenario A: the session as created at time 0. -/
def scASession0 : WaterSession :=
  { sessionId := "S1", userId := "U1", deviceId := "D1", wellId := "F1",
    startTime := 0, endTime := none, maxVolume := 5, pricePerLiter := 1/10,
    totalVolume := 0, totalCost := 0, status := .active, lastActivity := 0,
    flowEvents := [], paymentTxHash := none, revenueSplitTxHash := none,
    errorMessage := none }

/-- Scenario A: state right after session creation. -/
def scAStateA : SMState := ⟨[("S1", scASession0)], [("D1", scADevice)]⟩

/-- Scenario A: the recorded flow event of sequence `seq`. -/
def scAEvent (seq : ℕ) (vol : ℚ) (valve : ValveStatus) : WaterFlowEvent :=
  { timestamp := 0, consensusTimestamp := "ct", sequenceNumber := seq,
    pulseCount := 0, flowRate := 1, totalVolume := vol, valveStatus := valve,
    pressure := 50, temperature := 20, isValid := true }

/-- Scenario A: the session after the first flow event (volume 1.0). -/
def scASession1 : WaterSession :=
  { scASession0 with
      flowEvents := [scAEvent 1 1 ValveStatus.OPEN]
      totalVolume := 1
      totalCost := 1/10
      lastActivity := 1 }

/-- Scenario A: state after the first flow event. -/
def scAStateB : SMState := ⟨[("S1", scASession1)], [("D1", scADevice)]⟩

/-- Scenario A: the session after the second flow event (volume 3.0). -/
def scASession2 : WaterSession :=
  { scASession0 with
      flowEvents := [scAEvent 1 1 ValveStatus.OPEN, scAEvent 2 3 ValveStatus.OPEN]
      totalVolume := 3
      totalCost := 3/10
      lastActivity := 2 }

/-- Scenario A: state after the second flow event. -/
def scAStateC : SMState := ⟨[("S1", scASession2)], [("D1", scADevice)]⟩

/-- Scenario A: the session after the third flow event (volume 5.0, valve
closed): completed with total volume 5.0 and total cost 0.5. -/
def scASession3 : WaterSession :=
  { scASession0 with
      flowEvents := [scAEvent 1 1 ValveStatus.OPEN, scAEvent 2 3 ValveStatus.OPEN,
        scAEvent 3 5 ValveStatus.CLOSED]
      totalVolume := 5
      totalCost := 1/2
      lastActivity := 3
      status := .completed
      endTime := some 3 }

/-- Scenario A: final state. -/
def scAStateD : SMState := ⟨[("S1", scASession3)], [("D1", scADevice)]⟩

/-- Scenario A end-to-end: create `S1`, then deliver flow events with
cumulative volumes 1.0, 3.0, 5.0 (valve open, open, closed). -/
def scAFinal : SMState :=
  processMessage 3
    (processMessage 2
      (processMessage 1 (createSession 0 scAState0 scACreate).2 (scAEnv 1 1 .OPEN))
      (scAEnv 2 3 .OPEN))
    (scAEnv 3 5 .CLOSED)

/-- A session whose duration exceeds `maxSessionDuration` at time 2000000
while its last activity is recent (no inactivity timeout). -/
def durSession : WaterSession :=
  { sessionId := "S8", userId := "U8", deviceId := "D8", wellId := "W8",
    startTime := 0, endTime := none, maxVolume := 100, pricePerLiter := 1,
    totalVolume := 2, totalCost := 2, status := .active,
    lastActivity := 1900000, flowEvents := [], paymentTxHash := none,
    revenueSplitTxHash := none, errorMessage := none }

/-- Registry holding only `durSession`. -/
def durState : SMState := ⟨[("S8", durSession)], []⟩

/-- A session inactive for longer than `sessionTimeout` at time 2000000. -/
def idleSession : WaterSession :=
  { sessionId := "S9", userId := "U9", deviceId := "D9", wellId := "W9",
    startTime := 1500000, endTime := none, maxVolume := 100, pricePerLiter := 1,
    totalVolume := 2, totalCost := 2, status := .active,
    lastActivity := 1600000, flowEvents := [], paymentTxHash := none,
    revenueSplitTxHash := none, errorMessage := none }

/-- Registry holding only `idleSession`. -/
def idleState : SMState := ⟨[("S9", idleSession)], []⟩

/-- An ingestion envelope with a given sequence number and validity (the
payload itself is irrelevant to the cursor bookkeeping). -/
def seqEnv (seq : ℕ) (valid : Bool) : ProcessedMessage :=
  { sequenceNumber := seq, timestamp := "t", consensusTimestamp := "ct",
    message := .waterFlow (flowMsg 1), isValid := valid,
    payerAccountId := "0.0.3003" }

/-! ## Association-list lemmas -/

@[simp] theorem getKey_nil (k : String) : getKey k ([] : List (String × α)) = none := rfl

@[simp] theorem getKey_cons (k : String) (p : String × α) (l : List (String × α)) :
    getKey k (p :: l) = if p.1 = k then some p.2 else getKey k l := rfl

@[simp] theorem setKey_nil (k : String) (v : α) : setKey k v ([] : List (String × α)) = [(k, v)] := rfl

@[simp] theorem setKey_cons (k : String) (v : α) (p : String × α) (l : List (String × α)) :
    setKey k v (p :: l) = if p.1 = k then (k, v) :: l else p :: setKey k v l := rfl

theorem getKey_setKey_self (k : String) (v : α) (l : List (String × α)) :
    getKey k (setKey k v l) = some v := by
  induction l with
  | nil => simp
  | cons p rest ih =>
    by_cases h : p.1 = k <;> simp [h, ih]

theorem setKey_setKey_self (k : String) (v w : α) (l : List (String × α)) :
    setKey k w (setKey k v l) = setKey k w l := by
  induction l with
  | nil => simp
  | cons p rest ih =>
    by_cases h : p.1 = k <;> simp [h, ih]

theorem getKey_map_snd (k : String) (v : α) (f : α → α) (l : List (String × α))
    (h : getKey k l = some v) :
    getKey k (l.map (fun p => (p.1, f p.2))) = some (f v) := by
  induction l with
  | nil => simp at h
  | cons p rest ih =>
    by_cases hk : p.1 = k
    · simp only [getKey_cons, if_pos hk] at h
      cases h
      simp [hk]
    · simp only [getKey_cons, if_neg hk] at h
      simp [hk, ih h]

theorem getKey_filter (k : String) (v : α) (q : String × α → Bool)
    (l : List (String × α)) (h : getKey k l = some v) (hq : q (k, v) = true) :
    getKey k (l.filter q) = some v := by
  induction l with
  | nil => simp at h
  | cons p rest ih =>
    by_cases hk : p.1 = k
    · simp only [getKey_cons, if_pos hk] at h
      cases h
      have hqp : q p = true := by
        have hp : p = (k, p.2) := by
          cases p
          simp_all
        rw [hp]
        exact hq
      simp [List.filter_cons, hqp, hk]
    · simp only [getKey_cons, if_neg hk] at h
      by_cases hkeep : q p = true
      · simp [List.filter_cons, hkeep, hk, ih h]
      · simp only [Bool.not_eq_true] at hkeep
        simp [List.filter_cons, hkeep, ih h]

@[simp] theorem countQ_nil (Q : WaterSession → Bool) : countQ Q [] = 0 := rfl

theorem countQ_cons (Q : WaterSession → Bool) (p : String × WaterSession)
    (l : List (String × WaterSession)) :
    countQ Q (p :: l) = countQ Q l + (if Q p.2 then 1 else 0) := by
  simp [countQ, List.countP_cons]

theorem countQ_setKey_le (Q : WaterSession → Bool) (k : String) (v : WaterSession)
    (l : List (String × WaterSession)) :
    countQ Q (setKey k v l) ≤ countQ Q l + (if Q v then 1 else 0) := by
  induction l with
  | nil => simp [countQ_cons]
  | cons p rest ih =>
    by_cases h : p.1 = k
    · simp only [setKey_cons, if_pos h, countQ_cons]
      omega
    · simp only [setKey_cons, if_neg h, countQ_cons]
      omega

theorem countQ_setKey_lookup_le (Q : WaterSession → Bool) (k : String)
    (v w : WaterSession) (l : List (String × WaterSession))
    (h : getKey k l = some v) (hw : Q w = true → Q v = true) :
    countQ Q (setKey k w l) ≤ countQ Q l := by
  induction l with
  | nil => simp at h
  | cons p rest ih =>
    by_cases hk : p.1 = k
    · simp only [getKey_cons, if_pos hk] at h
      cases h
      simp only [setKey_cons, if_pos hk, countQ_cons]
      have : (if Q w then 1 else 0) ≤ (if Q p.2 then 1 else 0) := by
        by_cases hq : Q w = true
        · simp [hq, hw hq]
        · simp [hq]
      omega
    · simp only [getKey_cons, if_neg hk] at h
      simp only [setKey_cons, if_neg hk, countQ_cons]
      have := ih h
      omega

theorem countQ_map_le (Q : WaterSession → Bool) (f : WaterSession → WaterSession)
    (l : List (String × WaterSession))
    (hf : ∀ s, Q (f s) = true → Q s = true) :
    countQ Q (l.map (fun p => (p.1, f p.2))) ≤ countQ Q l := by
  induction l with
  | nil => simp
  | cons p rest ih =>
    simp only [List.map_cons, countQ_cons]
    have : (if Q (f p.2) then 1 else 0) ≤ (if Q p.2 then 1 else 0) := by
      by_cases hq : Q (f p.2) = true
      · simp [hq, hf _ hq]
      · simp [hq]
    omega

theorem countQ_filter_le (Q : WaterSession → Bool)
    (p : String × WaterSession → Bool) (l : List (String × WaterSession)) :
    countQ Q (l.filter p) ≤ countQ Q l := by
  induction l with
  | nil => simp
  | cons q rest ih =>
    by_cases h : p q
    · simp only [List.filter_cons, h, if_pos, countQ_cons]
      omega
    · simp only [List.filter_cons, h]
      simp only [Bool.false_eq_true, if_neg, countQ_cons, not_false_iff]
      omega

theorem countQ_eq_zero_of_no_active (st : SMState) (d : String)
    (h : getActiveSessionForDevice st d = none) :
    countQ (activeFor d) st.sessions = 0 := by
  unfold getActiveSessionForDevice at h
  rw [List.find?_eq_none] at h
  unfold countQ
  rw [List.countP_eq_zero]
  intro p hp
  have := h p.2 (List.mem_map_of_mem Prod.snd hp)
  simpa [activeFor] using this

theorem countQ_complete_le (d : String) (now : ℚ) (st : SMState) (sid : String) :
    countQ (activeFor d) ((completeSession now st sid).2).sessions
      ≤ countQ (activeFor d) st.sessions := by
  unfold completeSession
  cases h : getKey sid st.sessions with
  | none => simp
  | some s =>
    by_cases hs : s.status ≠ SessionStatus.active
    · simp [hs]
    · simp only [hs, if_neg, not_false_iff, ite_false]
      exact countQ_setKey_lookup_le _ _ _ _ _ h (by intro hq; simp [activeFor] at hq)

theorem countQ_cancel_le (d : String) (now : ℚ) (st : SMState) (sid : String)
    (reason : Option String) :
    countQ (activeFor d) ((cancelSession now st sid reason).2).sessions
      ≤ countQ (activeFor d) st.sessions := by
  unfold cancelSession
  cases h : getKey sid st.sessions with
  | none => simp
  | some s =>
    by_cases hs : s.status ≠ SessionStatus.active
    · simp [hs]
    · simp only [hs, if_neg, not_false_iff, ite_false]
      exact countQ_setKey_lookup_le _ _ _ _ _ h (by intro hq; simp [activeFor] at hq)

theorem countQ_error_le (d : String) (now : ℚ) (st : SMState) (sid : String)
    (msg : String) :
    countQ (activeFor d) ((errorSession now st sid msg).2).sessions
      ≤ countQ (activeFor d) st.sessions := by
  unfold errorSession
  cases h : getKey sid st.sessions with
  | none => simp
  | some s =>
    exact countQ_setKey_lookup_le _ _ _ _ _ h (by intro hq; simp [activeFor] at hq)

theorem countQ_flow_le (d : String) (now : ℚ) (st : SMState) (seqNum : ℕ)
    (consensusTs : String) (fm : WaterFlowMessage) :
    countQ (activeFor d) (processWaterFlowMessage now st seqNum consensusTs fm).sessions
      ≤ countQ (activeFor d) st.sessions := by
  unfold processWaterFlowMessage
  cases h : getKey fm.sessionId st.sessions with
  | none => simp
  | some s =>
    by_cases hmis : s.deviceId ≠ fm.deviceId ∨ s.userId ≠ fm.userId
    · simp [hmis]
    · simp only [hmis, if_neg, not_false_iff, ite_false]
      have hbase : countQ (activeFor d)
          (setKey fm.sessionId
            { s with
              flowEvents := s.flowEvents ++ [mkFlowEvent seqNum consensusTs fm],
              totalVolume := fm.totalVolume,
              totalCost := fm.totalVolume * s.pricePerLiter,
              lastActivity := now } st.sessions)
          ≤ countQ (activeFor d) st.sessions := by
        refine countQ_setKey_lookup_le _ _ _ _ _ h ?_
        intro hq
        simp only [activeFor, decide_eq_true_eq] at hq ⊢
        exact hq
      by_cases hdone : fm.valveStatus = ValveStatus.CLOSED ∨ fm.totalVolume ≥ s.maxVolume
      · simp only [hdone, if_pos]
        exact le_trans (countQ_complete_le _ _ _ _) hbase
      · simp only [hdone, if_neg, not_false_iff, ite_false]
        exact hbase

theorem countQ_status_le (d : String) (now : ℚ) (st : SMState)
    (sm : DeviceStatusMessage) :
    countQ (activeFor d) (processDeviceStatusMessage now st sm).sessions
      ≤ countQ (activeFor d) st.sessions := by
  unfold processDeviceStatusMessage
  by_cases hoff : sm.status = DeviceHealth.OFFLINE
  · simp only [hoff, if_pos]
    cases hact : getActiveSessionForDevice
        { st with deviceStatuses := setKey sm.deviceId _ st.deviceStatuses } sm.deviceId with
    | none => simp [hact]
    | some a =>
      simp only [hact]
      exact countQ_cancel_le _ _ _ _ _
  · simp [hoff]

theorem sweepSession_active (cfg : SMConfig) (now : ℚ) (s : WaterSession)
    (h : (sweepSession cfg now s).status = SessionStatus.active) :
    sweepSession cfg now s = s := by
  unfold sweepSession at *
  by_cases h1 : s.status = SessionStatus.active
  · by_cases h2 : now - s.lastActivity > cfg.sessionTimeout
    · simp [h1, h2] at h
    · by_cases h3 : now - s.startTime > cfg.maxSessionDuration
      · simp [h1, h2, h3] at h
      · simp [h1, h2, h3]
  · simp [h1]

theorem countQ_sweep_le (d : String) (cfg : SMConfig) (now : ℚ) (st : SMState) :
    countQ (activeFor d) (cleanupOldSessions cfg now st).sessions
      ≤ countQ (activeFor d) st.sessions := by
  unfold cleanupOldSessions
  refine le_trans (countQ_filter_le _ _ _) ?_
  refine countQ_map_le _ _ _ ?_
  intro s hq
  simp only [activeFor, decide_eq_true_eq] at hq ⊢
  have heq := sweepSession_active cfg now s hq.2
  rw [heq] at hq
  exact hq

theorem create_preserves (now : ℚ) (st : SMState) (d : CreateData)
    (h : atMostOneActive st) : atMostOneActive (createSession now st d).2 := by
  unfold createSession
  cases hds : getKey d.deviceId st.deviceStatuses with
  | none => simpa using h
  | some ds =>
    by_cases hon : ds.status ≠ DeviceHealth.ONLINE
    · simpa [hon] using h
    · simp only [hon, if_neg, not_false_iff, ite_false]
      cases hact : getActiveSessionForDevice st d.deviceId with
      | some a => simpa [hact] using h
      | none =>
        simp only [hact]
        intro dev
        show countQ (activeFor dev)
          (setKey d.sessionId
            { sessionId := d.sessionId, userId := d.userId,
              deviceId := d.deviceId, wellId := d.wellId,
              startTime := now, endTime := none,
              maxVolume := d.maxVolume, pricePerLiter := d.pricePerLiter,
              totalVolume := 0, totalCost := 0,
              status := .active, lastActivity := now, flowEvents := [],
              paymentTxHash := none, revenueSplitTxHash := none,
              errorMessage := none } st.sessions) ≤ 1
        have hle := countQ_setKey_le (activeFor dev) d.sessionId
          { sessionId := d.sessionId, userId := d.userId,
            deviceId := d.deviceId, wellId := d.wellId,
            startTime := now, endTime := none,
            maxVolume := d.maxVolume, pricePerLiter := d.pricePerLiter,
            totalVolume := 0, totalCost := 0,
            status := .active, lastActivity := now, flowEvents := [],
            paymentTxHash := none, revenueSplitTxHash := none,
            errorMessage := none } st.sessions
        by_cases hdev : d.deviceId = dev
        · subst hdev
          have hz := countQ_eq_zero_of_no_active st d.deviceId hact
          simp only [activeFor, decide_eq_true_eq] at hle
          simpa [hz] using hle
        · have : activeFor dev
              { sessionId := d.sessionId, userId := d.userId,
                deviceId := d.deviceId, wellId := d.wellId,
                startTime := now, endTime := none,
                maxVolume := d.maxVolume, pricePerLiter := d.pricePerLiter,
                totalVolume := 0, totalCost := 0,
                status := .active, lastActivity := now, flowEvents := [],
                paymentTxHash := none, revenueSplitTxHash := none,
                errorMessage := none } = false := by
            simp [activeFor, hdev]
          rw [this] at hle
          simp only [ite_false, Bool.false_eq_true, if_neg, not_false_iff] at hle
          exact le_trans (by omega) (h dev)

theorem applyOp_preserves (cfg : SMConfig) (st : SMState) (op : SMOp)
    (h : atMostOneActive st) : atMostOneActive (applyOp cfg st op) := by
  cases op with
  | create now d => exact create_preserves now st d h
  | procMsg now pm =>
    intro dev
    unfold applyOp processMessage
    by_cases hv : pm.isValid
    · simp only [hv, Bool.not_true, Bool.false_eq_true, if_neg, not_false_iff]
      cases pm.message with
      | waterFlow fm => exact le_trans (countQ_flow_le _ _ _ _ _ _) (h dev)
      | deviceStatus sm => exact le_trans (countQ_status_le _ _ _ _) (h dev)
    · simp only [Bool.not_eq_true] at hv
      simp only [hv]
      exact h dev
  | complete now sid => exact fun dev => le_trans (countQ_complete_le _ _ _ _) (h dev)
  | cancel now sid reason => exact fun dev => le_trans (countQ_cancel_le _ _ _ _ _) (h dev)
  | err now sid msg => exact fun dev => le_trans (countQ_error_le _ _ _ _ _) (h dev)
  | sweep now => exact fun dev => le_trans (countQ_sweep_le _ _ _ _) (h dev)

theorem runOps_preserves (cfg : SMConfig) (ops : List SMOp) (st : SMState)
    (h : atMostOneActive st) : atMostOneActive (runOps cfg st ops) := by
  induction ops generalizing st with
  | nil => exact h
  | cons op rest ih => exact ih _ (applyOp_preserves cfg st op h)

/-! ## Characterization of the flow-message reduction step -/

theorem processFlow_spec (now : ℚ) (st : SMState) (seqNum : ℕ) (cts : String)
    (fm : WaterFlowMessage) (s : WaterSession)
    (hs : getKey fm.sessionId st.sessions = some s)
    (hdev : s.deviceId = fm.deviceId) (huser : s.userId = fm.userId)
    (hact : s.status = .active) :
    processWaterFlowMessage now st seqNum cts fm =
      (if fm.valveStatus = .CLOSED ∨ fm.totalVolume ≥ s.maxVolume then
        { st with sessions := setKey fm.sessionId (flowCompleted now seqNum cts fm s) st.sessions }
      else
        { st with sessions := setKey fm.sessionId (flowUpdated now seqNum cts fm s) st.sessions }) := by
  have hmis : ¬(s.deviceId ≠ fm.deviceId ∨ s.userId ≠ fm.userId) := by
    simp [hdev, huser]
  by_cases hdone : fm.valveStatus = ValveStatus.CLOSED ∨ fm.totalVolume ≥ s.maxVolume
  · simp [processWaterFlowMessage, hs, hmis, hdone, completeSession,
      getKey_setKey_self, setKey_setKey_self, flowCompleted, flowUpdated, hact]
  · simp [processWaterFlowMessage, hs, hmis, hdone, flowUpdated]

/-- A flow event matching a non-active session's id, device and user still
applies the field updates; the completion attempt inside the step is a
no-op because the session is not active. -/
theorem processFlow_nonactive (now : ℚ) (st : SMState) (seqNum : ℕ)
    (cts : String) (fm : WaterFlowMessage) (s : WaterSession)
    (hs : getKey fm.sessionId st.sessions = some s)
    (hterm : s.status ≠ .active)
    (hdev : s.deviceId = fm.deviceId) (huser : s.userId = fm.userId) :
    processWaterFlowMessage now st seqNum cts fm =
      { st with sessions := setKey fm.sessionId (flowUpdated now seqNum cts fm s) st.sessions } := by
  have hmis : ¬(s.deviceId ≠ fm.deviceId ∨ s.userId ≠ fm.userId) := by
    simp [hdev, huser]
  by_cases hdone : fm.valveStatus = ValveStatus.CLOSED ∨ fm.totalVolume ≥ s.maxVolume
  · simp [processWaterFlowMessage, hs, hmis, hdone, completeSession,
      getKey_setKey_self, flowUpdated, hterm]
  · simp [processWaterFlowMessage, hs, hmis, hdone, flowUpdated]

/-! ## Scenario A, step by step -/

theorem scA_step0 : (createSession 0 scAState0 scACreate).2 = scAStateA := by
  norm_num [createSession, getActiveSessionForDevice, scAState0, scADevice,
    scACreate, scAStateA, scASession0]

theorem scA_step1 : processMessage 1 scAStateA (scAEnv 1 1 ValveStatus.OPEN) = scAStateB := by
  show processWaterFlowMessage 1 scAStateA 1 "ct" (scAFlow 1 ValveStatus.OPEN) = scAStateB
  rw [processFlow_spec 1 scAStateA 1 "ct" (scAFlow 1 ValveStatus.OPEN) scASession0
    (by norm_num [scAStateA, scAFlow]) rfl rfl rfl]
  rw [if_neg (show ¬((scAFlow 1 ValveStatus.OPEN).valveStatus = ValveStatus.CLOSED ∨
      (scAFlow 1 ValveStatus.OPEN).totalVolume ≥ scASession0.maxVolume) from by
    rw [not_or]
    exact ⟨by decide, by norm_num [scAFlow, scASession0]⟩)]
  norm_num [scAStateA, scAStateB, scASession0, scASession1, scAFlow, scAEvent,
    flowUpdated, mkFlowEvent]

theorem scA_step2 : processMessage 2 scAStateB (scAEnv 2 3 ValveStatus.OPEN) = scAStateC := by
  show processWaterFlowMessage 2 scAStateB 2 "ct" (scAFlow 3 ValveStatus.OPEN) = scAStateC
  rw [processFlow_spec 2 scAStateB 2 "ct" (scAFlow 3 ValveStatus.OPEN) scASession1
    (by norm_num [scAStateB, scAFlow]) rfl rfl rfl]
  rw [if_neg (show ¬((scAFlow 3 ValveStatus.OPEN).valveStatus = ValveStatus.CLOSED ∨
      (scAFlow 3 ValveStatus.OPEN).totalVolume ≥ scASession1.maxVolume) from by
    rw [not_or]
    exact ⟨by decide, by norm_num [scAFlow, scASession1, scASession0]⟩)]
  norm_num [scAStateB, scAStateC, scASession0, scASession1, scASession2, scAFlow,
    scAEvent, flowUpdated, mkFlowEvent]

theorem scA_step3 : processMessage 3 scAStateC (scAEnv 3 5 ValveStatus.CLOSED) = scAStateD := by
  show processWaterFlowMessage 3 scAStateC 3 "ct" (scAFlow 5 ValveStatus.CLOSED) = scAStateD
  rw [processFlow_spec 3 scAStateC 3 "ct" (scAFlow 5 ValveStatus.CLOSED) scASession2
    (by norm_num [scAStateC, scAFlow]) rfl rfl rfl]
  rw [if_pos (show (scAFlow 5 ValveStatus.CLOSED).valveStatus = ValveStatus.CLOSED ∨
      (scAFlow 5 ValveStatus.CLOSED).totalVolume ≥ scASession2.maxVolume from Or.inl rfl)]
  norm_num [scAStateC, scAStateD, scASession0, scASession2, scASession3, scAFlow,
    scAEvent, flowUpdated, flowCompleted, mkFlowEvent]

theorem scA_run : scAFinal = scAStateD := by
  unfold scAFinal
  rw [scA_step0, scA_step1, scA_step2, scA_step3]

/-! ## Claims -/

/-- C7: for every well-formed event `e` (a structurally valid flow or status
message), deserializing its serialization yields `e` again:
`deserializeMessage (serializeMessage e) = some e`. -/
theorem claim_C7_roundtrip (e : HCSMessage) :
    deserializeMessage (serializeMessage e) = some e := by
  cases e with
  | waterFlow m =>
    cases m with
    | mk ts dev well sig sid uid pulse rate vol valve press temp =>
      cases valve <;> rfl
  | deviceStatus m =>
    cases m with
    | mk ts dev well sig st bat sigs maint ec diag =>
      cases diag with
      | mk pump sensor network mem up =>
        cases st <;> cases ec <;> cases pump <;> cases sensor <;> cases network <;> rfl

/-- C3: at every state of the session manager reachable from the empty
initial state by any sequence of `createSession`, `processMessage`,
`completeSession`, `cancelSession`, `errorSession` and cleanup-sweep
operations, every device id has at most one session with that device id and
status `active` in the registry. -/
theorem claim_C3_at_most_one_active (cfg : SMConfig) (ops : List SMOp) (d : String) :
    countQ (activeFor d) (runOps cfg initSM ops).sessions ≤ 1 :=
  runOps_preserves cfg ops initSM (fun _ => by simp [initSM]) d

/-- C4: a valid flow event matching an active session's id, device and user
appends the event to the session's history, replaces `totalVolume` with the
event's cumulative volume, sets `totalCost = totalVolume × pricePerLiter`,
refreshes `lastActivity`, and completes the session exactly when the valve
is closed or `totalVolume ≥ maxVolume` (`flowUpdated` / `flowCompleted`
record exactly those field updates); in particular, scenario A (create
`S1` with maxVolume 5.0 and price 0.1, deliver flow events with volumes
1.0, 3.0, 5.0, valves open/open/closed) ends with `S1` completed,
`totalVolume = 5` and `totalCost = 0.5`. -/
theorem claim_C4_flow_reduction :
    (∀ (now : ℚ) (st : SMState) (seqNum : ℕ) (cts : String)
        (fm : WaterFlowMessage) (s : WaterSession),
      getKey fm.sessionId st.sessions = some s →
      s.deviceId = fm.deviceId → s.userId = fm.userId → s.status = .active →
      processWaterFlowMessage now st seqNum cts fm =
        (if fm.valveStatus = .CLOSED ∨ fm.totalVolume ≥ s.maxVolume then
          { st with sessions :=
              setKey fm.sessionId (flowCompleted now seqNum cts fm s) st.sessions }
        else
          { st with sessions :=
              setKey fm.sessionId (flowUpdated now seqNum cts fm s) st.sessions }))
    ∧ (getKey "S1" scAFinal.sessions).map
        (fun s => (s.status, s.totalVolume, s.totalCost))
        = some (.completed, 5, 1/2) := by
  constructor
  · intro now st seqNum cts fm s hs hdev huser hact
    exact processFlow_spec now st seqNum cts fm s hs hdev huser hact
  · rw [scA_run]
    norm_num [scAStateD, scASession3, scASession0]

/-- Witness for C4: the general flow-reduction equation applied to the third
scenario-A event. -/
theorem claim_C4_flow_reduction_witness :
    processWaterFlowMessage 3 scAStateC 3 "ct" (scAFlow 5 ValveStatus.CLOSED) =
      (if (scAFlow 5 ValveStatus.CLOSED).valveStatus = .CLOSED ∨
          (scAFlow 5 ValveStatus.CLOSED).totalVolume ≥ scASession2.maxVolume then
        { scAStateC with
            sessions := setKey (scAFlow 5 ValveStatus.CLOSED).sessionId
              (flowCompleted 3 3 "ct" (scAFlow 5 ValveStatus.CLOSED) scASession2)
              scAStateC.sessions }
      else
        { scAStateC with
            sessions := setKey (scAFlow 5 ValveStatus.CLOSED).sessionId
              (flowUpdated 3 3 "ct" (scAFlow 5 ValveStatus.CLOSED) scASession2)
              scAStateC.sessions }) :=
  claim_C4_flow_reduction.1 3 scAStateC 3 "ct" (scAFlow 5 ValveStatus.CLOSED)
    scASession2 (by norm_num [scAStateC, scAFlow]) rfl rfl rfl

/-- C1 counterexample: on the already-completed `termSession`,
`errorSession` returns success — not failure — and overwrites the session's
status to `error`; likewise a verified flow event naming the terminal
session (matching device and user) overwrites its total volume from 5 to 6.
This refutes "calling … errorSession on an already-terminal session id is a
no-op that returns failure … and never mutates" and "processing a verified
flow event whose session id names a terminal session leaves that session
unchanged". -/
theorem claim_C1_counterexample :
    (errorSession 20 termState "S1" "payment failed").1 = true ∧
    (getKey "S1" ((errorSession 20 termState "S1" "payment failed").2).sessions).map
        (fun s => s.status) = some SessionStatus.error ∧
    termSession.status = SessionStatus.completed ∧
    (getKey "S1" (processWaterFlowMessage 20 termState 7 "ct" termFlow).sessions).map
        (fun s => s.totalVolume) = some 6 ∧
    termSession.totalVolume = 5 := by
  refine ⟨rfl, ?_, rfl, ?_, rfl⟩
  · norm_num [errorSession, termState, termSession]
  · rw [processFlow_nonactive 20 termState 7 "ct" termFlow termSession rfl
      (by decide) rfl rfl]
    norm_num [flowUpdated, termState, termFlow, getKey_setKey_self]

/-- C1 (amended): `completeSession` and `cancelSession` on an
already-terminal or nonexistent session id are no-ops that return failure
and leave the state unchanged; `errorSession` is such a no-op only for a
nonexistent id — on any present session, terminal included, it returns
success and overwrites status, end time and error message; and a flow event
that matches a terminal session's id, device and user still mutates that
session (appends the event and overwrites the totals), with the subsequent
completion attempt a no-op. -/
theorem claim_C1_terminal_transitions (now : ℚ) (st : SMState) (sid : String)
    (reason : Option String) (msg : String) (seqNum : ℕ) (cts : String)
    (fm : WaterFlowMessage) :
    ((∀ s, getKey sid st.sessions = some s → s.status ≠ .active) →
      completeSession now st sid = (false, st) ∧
      cancelSession now st sid reason = (false, st))
    ∧ (getKey sid st.sessions = none → errorSession now st sid msg = (false, st))
    ∧ (∀ s, getKey sid st.sessions = some s →
        errorSession now st sid msg =
          (true, { st with sessions := setKey sid (errored now msg s) st.sessions }))
    ∧ (∀ s, getKey fm.sessionId st.sessions = some s → s.status ≠ .active →
        s.deviceId = fm.deviceId → s.userId = fm.userId →
        processWaterFlowMessage now st seqNum cts fm =
          { st with sessions := setKey fm.sessionId (flowUpdated now seqNum cts fm s) st.sessions }) := by
  refine ⟨?_, ?_, ?_, ?_⟩
  · intro hterm
    cases hget : getKey sid st.sessions with
    | none => exact ⟨by simp [completeSession, hget], by simp [cancelSession, hget]⟩
    | some s =>
      have hs := hterm s hget
      exact ⟨by simp [completeSession, hget, hs], by simp [cancelSession, hget, hs]⟩
  · intro hget
    simp [errorSession, hget]
  · intro s hget
    simp [errorSession, hget, errored]
  · intro s hget hterm hdev huser
    exact processFlow_nonactive now st seqNum cts fm s hget hterm hdev huser

/-- Witness for the amended C1 at the concrete terminal state. -/
theorem claim_C1_terminal_transitions_witness :
    completeSession 20 termState "S1" = (false, termState) ∧
    cancelSession 20 termState "S1" none = (false, termState) ∧
    errorSession 20 initSM "S0" "m" = (false, initSM) := by
  have h := claim_C1_terminal_transitions 20 termState "S1" none "m" 0 "ct" termFlow
  have hterm : ∀ s, getKey "S1" termState.sessions = some s → s.status ≠ .active := by
    intro s hs
    rw [show getKey "S1" termState.sessions = some termSession from rfl] at hs
    cases hs
    decide
  have h2 := claim_C1_terminal_transitions 20 initSM "S0" none "m" 0 "ct" termFlow
  exact ⟨(h.1 hterm).1, (h.1 hterm).2, h2.2.1 rfl⟩

/-- C5: `createSession` fails exactly when the device has no liveness
record with status `ONLINE` or the device already has an active session; on
failure the state is unchanged; on success the returned session has status
`active` and is registered under its session id. -/
theorem claim_C5_create_session (now : ℚ) (st : SMState) (d : CreateData) :
    ((createSession now st d).1 = none ↔
      (∀ ds, getKey d.deviceId st.deviceStatuses = some ds → ds.status ≠ .ONLINE)
      ∨ getActiveSessionForDevice st d.deviceId ≠ none)
    ∧ ((createSession now st d).1 = none → (createSession now st d).2 = st)
    ∧ (∀ s, (createSession now st d).1 = some s →
        s.status = .active ∧
        getKey d.sessionId ((createSession now st d).2).sessions = some s) := by
  unfold createSession
  cases hds : getKey d.deviceId st.deviceStatuses with
  | none =>
    refine ⟨⟨fun _ => Or.inl ?_, fun _ => rfl⟩, fun _ => rfl, fun s hs => by simp at hs⟩
    intro ds hds'
    simp at hds'
  | some ds =>
    by_cases hon : ds.status ≠ DeviceHealth.ONLINE
    · refine ⟨⟨fun _ => Or.inl ?_, fun _ => by simp [hon]⟩,
        fun _ => by simp [hon], fun s hs => by simp [hon] at hs⟩
      intro ds' hds'
      cases hds'
      exact hon
    · simp only [hon, ite_false, if_neg, not_false_iff]
      cases hact : getActiveSessionForDevice st d.deviceId with
      | some a =>
        refine ⟨⟨fun _ => Or.inr (by simp [hact]), fun _ => rfl⟩,
          fun _ => rfl, fun s hs => by simp at hs⟩
      | none =>
        refine ⟨⟨fun h => by simp at h, fun h => ?_⟩,
          fun h => by simp at h, fun s hs => ?_⟩
        · rcases h with h | h
          · exact absurd (h ds rfl) (by simpa using hon)
          · exact absurd rfl h
        · cases hs
          exact ⟨rfl, getKey_setKey_self _ _ _⟩

/-- Witness for C5: scenario D — creating a session on a device with no
liveness record fails and leaves the state unchanged. -/
theorem claim_C5_create_session_witness :
    (createSession 0 initSM scACreate).1 = none ∧
    (createSession 0 initSM scACreate).2 = initSM := by
  have h := claim_C5_create_session 0 initSM scACreate
  have hfail : (createSession 0 initSM scACreate).1 = none := by
    refine h.1.mpr (Or.inl ?_)
    intro ds hds
    simp [initSM] at hds
  exact ⟨hfail, h.2.1 hfail⟩

theorem getKey_cleanup (cfg : SMConfig) (now : ℚ) (st : SMState) (sid : String)
    (s : WaterSession) (hs : getKey sid st.sessions = some s)
    (hkeep : shouldEvict now (sweepSession cfg now s) = false) :
    getKey sid (cleanupOldSessions cfg now st).sessions
      = some (sweepSession cfg now s) := by
  unfold cleanupOldSessions
  exact getKey_filter _ _ _ _ (getKey_map_snd _ _ _ _ hs) (by simp [hkeep])

/-- C8 counterexample: at time 2000000 the sweep completes `durSession` for
exceeding the maximum duration, but the resulting state is byte-identical to
a caller-initiated `completeSession` at the same time, and the stored
`errorMessage` is `none` — no reason string distinguishes the
timeout-driven completion. -/
theorem claim_C8_counterexample :
    cleanupOldSessions defaultSMConfig 2000000 durState
      = (completeSession 2000000 durState "S8").2 ∧
    (getKey "S8" (cleanupOldSessions defaultSMConfig 2000000 durState).sessions).map
      (fun s => s.errorMessage) = some none := by
  constructor
  · norm_num [cleanupOldSessions, sweepSession, shouldEvict, retentionWindow,
      defaultSMConfig, durState, durSession, completeSession]
  · norm_num [cleanupOldSessions, sweepSession, shouldEvict, retentionWindow,
      defaultSMConfig, durState, durSession]

/-- C8 (amended): the sweep's inactivity cancellation stores the reason
string "Session timeout due to inactivity" in `errorMessage`; its
max-duration completion stores no reason at all (`completeSession` discards
the reason argument), so only the cancellation path is distinguishable from
a caller-initiated transition by the stored reason string. -/
theorem claim_C8_sweep_reasons (cfg : SMConfig) (now : ℚ) (st : SMState)
    (sid : String) (s : WaterSession)
    (hs : getKey sid st.sessions = some s) (hact : s.status = .active) :
    (now - s.lastActivity > cfg.sessionTimeout →
      getKey sid (cleanupOldSessions cfg now st).sessions
        = some (inactivityCancelled now s))
    ∧ (¬ now - s.lastActivity > cfg.sessionTimeout →
       now - s.startTime > cfg.maxSessionDuration →
      getKey sid (cleanupOldSessions cfg now st).sessions
        = some (durationCompleted now s)) := by
  constructor
  · intro hidle
    have hsweep : sweepSession cfg now s = inactivityCancelled now s := by
      simp [sweepSession, hact, hidle, inactivityCancelled]
    have hkeep : shouldEvict now (sweepSession cfg now s) = false := by
      rw [hsweep]
      norm_num [shouldEvict, retentionWindow, inactivityCancelled]
    rw [getKey_cleanup cfg now st sid s hs hkeep, hsweep]
  · intro hidle hdur
    have hsweep : sweepSession cfg now s = durationCompleted now s := by
      simp [sweepSession, hact, hidle, hdur, durationCompleted]
    have hkeep : shouldEvict now (sweepSession cfg now s) = false := by
      rw [hsweep]
      norm_num [shouldEvict, retentionWindow, durationCompleted]
    rw [getKey_cleanup cfg now st sid s hs hkeep, hsweep]

/-- Witness for the amended C8: the sweep cancels `idleSession` for
inactivity at time 2000000, storing the distinguishing reason string. -/
theorem claim_C8_sweep_reasons_witness :
    getKey "S9" (cleanupOldSessions defaultSMConfig 2000000 idleState).sessions
      = some (inactivityCancelled 2000000 idleSession) := by
  have h := claim_C8_sweep_reasons defaultSMConfig 2000000 idleState "S9"
    idleSession rfl rfl
  exact h.1 (by norm_num [defaultSMConfig, idleSession])

theorem foldl_add_shift (f : WaterSession → ℚ) (a : ℚ) (l : List WaterSession) :
    l.foldl (fun acc s => acc + f s) a = a + l.foldl (fun acc s => acc + f s) 0 := by
  induction l generalizing a with
  | nil => simp
  | cons x xs ih =>
    simp only [List.foldl_cons]
    rw [ih (a + f x), ih (0 + f x)]
    ring

theorem sumBy_cons (f : WaterSession → ℚ) (x : WaterSession) (l : List WaterSession) :
    sumBy f (x :: l) = f x + sumBy f l := by
  unfold sumBy
  simp only [List.foldl_cons]
  rw [foldl_add_shift]
  ring

theorem length_status_partition (l : List WaterSession) :
    (l.filter (fun s => decide (s.status = .active))).length
    + (l.filter (fun s => decide (s.status = .completed))).length
    + (l.filter (fun s => decide (s.status = .cancelled))).length
    + (l.filter (fun s => decide (s.status = .error))).length = l.length := by
  induction l with
  | nil => rfl
  | cons x xs ih =>
    cases hx : x.status <;>
      simp only [List.filter_cons, hx, decide_eq_true_eq, List.length_cons] <;>
      simp <;> omega

theorem sumBy_status_partition (f : WaterSession → ℚ) (l : List WaterSession) :
    sumBy f l = sumBy f (l.filter (fun s => decide (s.status = .active)))
      + sumBy f (l.filter (fun s => decide (s.status = .completed)))
      + sumBy f (l.filter (fun s => decide (s.status = .cancelled)))
      + sumBy f (l.filter (fun s => decide (s.status = .error))) := by
  induction l with
  | nil => simp [sumBy]
  | cons x xs ih =>
    cases hx : x.status <;>
      simp only [List.filter_cons, hx, decide_eq_true_eq] <;>
      simp [sumBy_cons, ih] <;> ring

/-- C10: `getStatistics` always partitions `totalSessions` into the four
status counts, and its `totalVolume`/`totalRevenue` sum over every session
still in the registry regardless of status — cancelled and error sessions
contribute their dispensed volume and computed cost to the aggregates. -/
theorem claim_C10_statistics (st : SMState) :
    (getStatistics st).activeSessions + (getStatistics st).completedSessions
      + (getStatistics st).cancelledSessions + (getStatistics st).errorSessions
      = (getStatistics st).totalSessions
    ∧ (getStatistics st).totalVolume
      = sumBy (fun s => s.totalVolume) (sessionsWithStatus .active st)
        + sumBy (fun s => s.totalVolume) (sessionsWithStatus .completed st)
        + sumBy (fun s => s.totalVolume) (sessionsWithStatus .cancelled st)
        + sumBy (fun s => s.totalVolume) (sessionsWithStatus .error st)
    ∧ (getStatistics st).totalRevenue
      = sumBy (fun s => s.totalCost) (sessionsWithStatus .active st)
        + sumBy (fun s => s.totalCost) (sessionsWithStatus .completed st)
        + sumBy (fun s => s.totalCost) (sessionsWithStatus .cancelled st)
        + sumBy (fun s => s.totalCost) (sessionsWithStatus .error st) := by
  refine ⟨?_, ?_, ?_⟩
  · exact length_status_partition (st.sessions.map Prod.snd)
  · exact sumBy_status_partition (fun s => s.totalVolume) (st.sessions.map Prod.snd)
  · exact sumBy_status_partition (fun s => s.totalCost) (st.sessions.map Prod.snd)

/-- C2 counterexample: with the registered device `pipeDevice`, the flow
events with volumes 3, 1, 2 for one (device, session) key verify as
accepted, rejected, accepted — yet the last accepted volume 2 is smaller
than the previously accepted volume 3, because the rejected event
overwrote the tracked volume. -/
theorem claim_C2_counterexample :
    (runPipeline trueSig 0 pipeState0
      [.waterFlow (flowMsg 3), .waterFlow (flowMsg 1), .waterFlow (flowMsg 2)]).1
      = [true, false, true] ∧
    (flowMsg 2).totalVolume < (flowMsg 3).totalVolume := by
  constructor
  · norm_num [runPipeline, verifyMessage, validateFlowBusinessRules, sessionKey,
      jsAbs, maxTimestampDrift, pipelineMaxSessionDuration, trueSig, pipeDevice,
      pipeState0, flowMsg, HCSMessage.deviceId, HCSMessage.wellId,
      HCSMessage.timestamp, statusWarnings]
  · norm_num [flowMsg]

/-- C2 (amended): an accepted flow event's cumulative volume is ≥ the
volume currently tracked for its (device, session) key — the volume of the
immediately preceding flow event for that key, accepted or rejected — not
≥ every previously accepted volume, because `validateWaterFlowMessage`
overwrites the tracked volume on every event regardless of acceptance. -/
theorem claim_C2_monotonicity (sigOk : HCSMessage → String → Bool) (now : ℚ)
    (st : PipelineState) (m : WaterFlowMessage) (e : TrackEntry)
    (htrack : getKey (sessionKey m) st.activeSessions = some e)
    (hvalid : ((verifyMessage sigOk now st (.waterFlow m)).1).isValid = true) :
    e.totalVolume ≤ m.totalVolume := by
  by_contra hle
  rw [not_le] at hle
  cases hdev : getKey m.deviceId st.deviceRegistry with
  | none => simp [verifyMessage, HCSMessage.deviceId, hdev] at hvalid
  | some dev =>
    simp [verifyMessage, HCSMessage.deviceId, hdev, validateFlowBusinessRules,
      htrack, hle] at hvalid

/-- Witness for the amended C2: with tracked volume 3, an event reporting
volume 5 is accepted, and 3 ≤ 5. -/
theorem claim_C2_monotonicity_witness :
    (TrackEntry.mk 0 3).totalVolume ≤ (flowMsg 5).totalVolume := by
  refine claim_C2_monotonicity trueSig 0 pipeState1 (flowMsg 5) ⟨0, 3⟩ ?_ ?_
  · norm_num [pipeState1, verifyMessage, validateFlowBusinessRules, sessionKey,
      jsAbs, maxTimestampDrift, trueSig, pipeDevice, pipeState0, flowMsg,
      HCSMessage.deviceId, HCSMessage.wellId, HCSMessage.timestamp, statusWarnings]
  · norm_num [pipeState1, verifyMessage, validateFlowBusinessRules, sessionKey,
      jsAbs, maxTimestampDrift, pipelineMaxSessionDuration, trueSig, pipeDevice,
      pipeState0, flowMsg, HCSMessage.deviceId, HCSMessage.wellId,
      HCSMessage.timestamp, statusWarnings]

/-- C9: for a flow event whose device id is registered, `verifyMessage`
always writes the per-(device, session) tracking map — an absent key gains
an entry recording the event's timestamp and volume, and a present key has
its tracked volume overwritten by the event's reported volume — regardless
of whether the event was accepted or rejected (no validity hypothesis). -/
theorem claim_C9_tracking_mutation (sigOk : HCSMessage → String → Bool)
    (now : ℚ) (st : PipelineState) (m : WaterFlowMessage) (dev : DeviceRegistry)
    (hdev : getKey m.deviceId st.deviceRegistry = some dev) :
    ((verifyMessage sigOk now st (.waterFlow m)).2).activeSessions =
      (match getKey (sessionKey m) st.activeSessions with
       | some e => setKey (sessionKey m) { e with totalVolume := m.totalVolume } st.activeSessions
       | none => setKey (sessionKey m) ⟨m.timestamp, m.totalVolume⟩ st.activeSessions) := by
  cases htrack : getKey (sessionKey m) st.activeSessions with
  | none => simp [verifyMessage, HCSMessage.deviceId, hdev, validateFlowBusinessRules, htrack]
  | some e => simp [verifyMessage, HCSMessage.deviceId, hdev, validateFlowBusinessRules, htrack]

/-- Witness for C9: the first flow event for `S1` on the registered device
opens a tracking entry with its timestamp and volume even though the state
had no entry. -/
theorem claim_C9_tracking_mutation_witness :
    ((verifyMessage trueSig 0 pipeState0 (.waterFlow (flowMsg 3))).2).activeSessions =
      setKey (sessionKey (flowMsg 3))
        ⟨(flowMsg 3).timestamp, (flowMsg 3).totalVolume⟩
        pipeState0.activeSessions := by
  rw [claim_C9_tracking_mutation trueSig 0 pipeState0 (flowMsg 3) pipeDevice rfl]
  rfl

theorem foldl_max_shift (a : ℕ) (l : List ProcessedMessage) :
    l.foldl (fun acc m => max acc m.sequenceNumber) a = max a (maxSeq l) := by
  induction l generalizing a with
  | nil => simp [maxSeq]
  | cons x xs ih =>
    simp only [maxSeq, List.foldl_cons]
    rw [ih, ih (max 0 x.sequenceNumber)]
    omega

theorem mem_le_maxSeq (m : ProcessedMessage) (l : List ProcessedMessage)
    (h : m ∈ l) : m.sequenceNumber ≤ maxSeq l := by
  induction l with
  | nil => cases h
  | cons x xs ih =>
    have hx : maxSeq (x :: xs) = max (max 0 x.sequenceNumber) (maxSeq xs) := by
      simp only [maxSeq, List.foldl_cons]
      exact foldl_max_shift _ _
    rcases List.mem_cons.mp h with rfl | hmem
    · omega
    · have := ih hmem
      omega

theorem maxSeq_append (a b : List ProcessedMessage) :
    maxSeq (a ++ b) = max (maxSeq a) (maxSeq b) := by
  simp only [maxSeq, List.foldl_append]
  exact foldl_max_shift _ _

theorem fetch_lower (log : List ProcessedMessage) (fromSeq limit : ℕ)
    (m : ProcessedMessage) (h : m ∈ fetchMessages log fromSeq limit) :
    fromSeq ≤ m.sequenceNumber := by
  unfold fetchMessages at h
  have hmem := List.mem_of_mem_take h
  rw [List.mem_filter] at hmem
  simpa using hmem.2

theorem pollCycle_cursor_le (limit : ℕ) (st : PollState)
    (log : List ProcessedMessage) :
    st.lastSequenceNumber ≤ (pollCycle limit st log).lastSequenceNumber := by
  unfold pollCycle
  cases hfetch : fetchMessages log (st.lastSequenceNumber + 1) limit with
  | nil => simp [hfetch]
  | cons x xs =>
    simp only [hfetch, List.isEmpty_cons, Bool.false_eq_true, if_neg, not_false_iff]
    have h1 := fetch_lower log (st.lastSequenceNumber + 1) limit x
      (by rw [hfetch]; exact List.mem_cons_self x xs)
    have h2 := mem_le_maxSeq x (x :: xs) (List.mem_cons_self x xs)
    omega

theorem pollCycle_delivers (limit : ℕ) (st : PollState)
    (log : List ProcessedMessage) :
    (pollCycle limit st log).delivered
      = st.delivered ++ fetchMessages log (st.lastSequenceNumber + 1) limit := by
  unfold pollCycle
  cases hfetch : fetchMessages log (st.lastSequenceNumber + 1) limit with
  | nil => simp [hfetch]
  | cons x xs => simp [hfetch]

theorem runPolls_cursor_le (limit : ℕ) (logs : List (List ProcessedMessage))
    (st : PollState) :
    st.lastSequenceNumber ≤ (runPolls limit st logs).lastSequenceNumber := by
  induction logs generalizing st with
  | nil => exact le_refl _
  | cons log rest ih =>
    exact le_trans (pollCycle_cursor_le limit st log) (ih (pollCycle limit st log))

theorem runPolls_max_inv (limit : ℕ) (logs : List (List ProcessedMessage))
    (st : PollState)
    (h : st.delivered = [] ∨ st.lastSequenceNumber = maxSeq st.delivered) :
    (runPolls limit st logs).delivered = [] ∨
    (runPolls limit st logs).lastSequenceNumber
      = maxSeq (runPolls limit st logs).delivered := by
  induction logs generalizing st with
  | nil => exact h
  | cons log rest ih =>
    refine ih (pollCycle limit st log) ?_
    unfold pollCycle
    cases hfetch : fetchMessages log (st.lastSequenceNumber + 1) limit with
    | nil => simpa [hfetch] using h
    | cons x xs =>
      right
      simp only [hfetch, List.isEmpty_cons, Bool.false_eq_true, if_neg, not_false_iff]
      rw [maxSeq_append]
      rcases h with hdel | hcur
      · rw [hdel]
        simp [maxSeq]
      · have h1 := fetch_lower log (st.lastSequenceNumber + 1) limit x
          (by rw [hfetch]; exact List.mem_cons_self x xs)
        have h2 := mem_le_maxSeq x (x :: xs) (List.mem_cons_self x xs)
        rw [← hcur]
        omega

/-- C6: every poll cycle leaves the cursor non-decreasing, delivers every
fetched envelope (valid or invalid alike — the batch is appended whole, with
no validity filter), and after any sequence of successful poll cycles from a
fresh start the cursor is at least its initial value and, once anything has
been delivered, equals the maximum sequence number among all delivered
envelopes. -/
theorem claim_C6_cursor_invariants (limit c0 : ℕ)
    (logs : List (List ProcessedMessage)) :
    (∀ (st : PollState) (log : List ProcessedMessage),
      st.lastSequenceNumber ≤ (pollCycle limit st log).lastSequenceNumber)
    ∧ (∀ (st : PollState) (log : List ProcessedMessage),
      (pollCycle limit st log).delivered
        = st.delivered ++ fetchMessages log (st.lastSequenceNumber + 1) limit)
    ∧ c0 ≤ (runPolls limit ⟨c0, []⟩ logs).lastSequenceNumber
    ∧ ((runPolls limit ⟨c0, []⟩ logs).delivered ≠ [] →
      (runPolls limit ⟨c0, []⟩ logs).lastSequenceNumber
        = maxSeq (runPolls limit ⟨c0, []⟩ logs).delivered) := by
  refine ⟨fun st log => pollCycle_cursor_le limit st log,
    fun st log => pollCycle_delivers limit st log,
    runPolls_cursor_le limit logs ⟨c0, []⟩, ?_⟩
  intro hne
  rcases runPolls_max_inv limit logs ⟨c0, []⟩ (Or.inl rfl) with h | h
  · exact absurd h hne
  · exact h

/-- Witness for C6: two poll cycles over concrete log pages (sequence
numbers 1, 2 then 3, one envelope invalid) end with the cursor equal to the
maximum delivered sequence number. -/
theorem claim_C6_cursor_invariants_witness :
    (runPolls 10 ⟨0, []⟩ [[seqEnv 1 true, seqEnv 2 false], [seqEnv 3 true]]).lastSequenceNumber
      = maxSeq (runPolls 10 ⟨0, []⟩ [[seqEnv 1 true, seqEnv 2 false], [seqEnv 3 true]]).delivered := by
  refine (claim_C6_cursor_invariants 10 0 [[seqEnv 1 true, seqEnv 2 false], [seqEnv 3 true]]).2.2.2 ?_
  simp [runPolls, pollCycle, fetchMessages, seqEnv, maxSeq]

end Waternity
